import Mathlib

/-!
Shallow embedding of the georectification export pipeline of
`geocamTiePoint/models.py` (classes `ImageData`, `QuadTree`, `Overlay`).

Conventions used throughout:

* Database rows become Lean structures; Django `DateTimeField` values are
  modelled as abstract instants `ℕ`; `datetime.utcnow()` is passed in as an
  explicit `utcnow` argument at each call that reads the clock.
* NumPy matrices handled column-wise become `List` of column tuples; Python
  `None` becomes `Option.none`; a raised Python exception becomes the
  `Except.error`/`Option` side of a result type.
* External collaborators that the spec declares out of scope (the transform's
  `forward`/`reverse` evaluation, the Mercator projection, the RPC fitter,
  the raster reprojection engine, the tile writer) are taken as function
  parameters, exactly in the role the source code calls them.
* Tar archives (`quadTree.TarWriter`) are modelled as the list of
  `(entry name, entry bytes)` pairs written into them.
-/

namespace GeocamTiePoint

/-! ### Inverse sampling bridge: `QuadTree.reversePts`

Source (`models.py` lines 261-281):

```
def reversePts(self, toPts):
    transformDict  = json.loads(self.transform)
    tform =  transform.makeTransform(transformDict)
    pixels = None
    for column in toPts.T:
        lonlat = column[:2]
        gmap_meters = transform.lonLatToMeters(lonlat)
        px, py = tform.reverse(gmap_meters)
        newCol = np.array([[px],[py]])
        if pixels is None:
            pixels = newCol
        else:
            pixels = np.column_stack((pixels, newCol))
    return pixels
```

The 3×N input matrix is the list of its N columns `(lon, lat, alt)`; the
output starts as Python `None` and becomes a 2×N matrix (list of 2D columns)
once the first column is appended.  `tform.reverse` may raise (the point may
lie outside the transform's domain); the exception aborts the loop and
propagates unchanged, which we model with `Except`.  The coordinate type `α`
is abstract: nothing in the loop inspects coordinate values. -/

/-- Loop body of `QuadTree.reversePts`: iterates over the remaining columns,
threading the `pixels` accumulator (Python `None` / matrix built so far).
A failing `reverse` call aborts the whole loop with the raw error. -/
def reversePtsLoop {α ε : Type} (rev : α × α → Except ε (α × α))
    (lonLatToMeters : α × α → α × α) :
    List (α × α × α) → Option (List (α × α)) → Except ε (Option (List (α × α)))
  | [], pixels => Except.ok pixels
  | column :: rest, pixels =>
      -- lonlat = column[:2]; gmap_meters = lonLatToMeters(lonlat)
      match rev (lonLatToMeters (column.1, column.2.1)) with
      | Except.error e => Except.error e
      | Except.ok newCol =>
          match pixels with
          | none => reversePtsLoop rev lonLatToMeters rest (some [newCol])
          | some ps => reversePtsLoop rev lonLatToMeters rest (some (ps ++ [newCol]))

/-- `QuadTree.reversePts`: `rev` is the reverse mapping of the transform
reconstructed from `self.transform` (`makeTransform(json.loads(...)).reverse`),
`lonLatToMeters` the projection adapter. -/
def reversePts {α ε : Type} (rev : α × α → Except ε (α × α))
    (lonLatToMeters : α × α → α × α) (toPts : List (α × α × α)) :
    Except ε (Option (List (α × α))) :=
  reversePtsLoop rev lonLatToMeters toPts none

/-- The pixel column produced for one world-point column: first two entries
(lon, lat), projected to meters, then reverse-mapped. -/
def reverseCol {α : Type} (revF lonLatToMeters : α × α → α × α)
    (column : α × α × α) : α × α :=
  revF (lonLatToMeters (column.1, column.2.1))

/-! ### Size classification: `QuadTree.getImageSizeType` (lines 283-288) -/

/-- The schema-free `extras` of an `Overlay`, restricted to the subfields the
export pipeline reads: `imageSize` (width, height of the original image) and
`transform` (fitted transform parameters, absent until alignment; the
parameter dictionary is kept in its serialized form). -/
structure OverlayExtras where
  imageSize : ℤ × ℤ
  transform : Option String
  deriving Repr, DecidableEq

/-- `QuadTree.getImageSizeType`: `imgWidth = ...extras.imageSize[0]`;
`imgSize = "large"`; `if imgWidth < 1200: imgSize = "small"`. -/
def getImageSizeType (extras : OverlayExtras) : String :=
  let imgWidth := extras.imageSize.1
  if imgWidth < 1200 then "small" else "large"

/-! ### Record rows and their `save` overrides (C10)

Each `save` override sets `lastModifiedTime = datetime.datetime.utcnow()` and
then delegates to the base `save`, which persists the record as it then
stands; each model `save` below returns that persisted record. -/

/-- `ImageData` row (lines 119-147).  Floats (`contrast`, `brightness`) are
modelled as rationals; the image blob as its byte string. -/
structure ImageDataRow where
  id : ℕ
  lastModifiedTime : ℕ
  image : String
  contentType : String
  overlayKey : Option ℕ
  checksum : String
  unusedTime : Option ℕ
  rotationAngle : ℤ
  contrast : ℚ
  brightness : ℚ
  raw : Bool
  deriving Repr, DecidableEq

/-- `ImageData.save` (lines 145-147). -/
def ImageDataRow.save (r : ImageDataRow) (utcnow : ℕ) : ImageDataRow :=
  { r with lastModifiedTime := utcnow }

/-- A tar archive is the list of `(entry name, entry bytes)` pairs written. -/
abbrev TarData : Type := List (String × String)

/-- `QuadTree` row (lines 154-191).  `transform` is either the empty string
(simple quadtree) or the JSON text of the warping transform; the export
artifact fields are `None` until the corresponding export attaches one.  The
`imageData` foreign key is modelled as the referenced row. -/
structure QuadTreeRow where
  id : ℕ
  lastModifiedTime : ℕ
  imageData : Option ImageDataRow
  transform : String
  htmlExportName : Option String
  htmlExport : Option TarData
  kmlExportName : Option String
  kmlExport : Option TarData
  geotiffExportName : Option String
  geotiffExport : Option TarData
  unusedTime : Option ℕ
  deriving DecidableEq

/-- `QuadTree.save` (lines 189-191). -/
def QuadTreeRow.save (q : QuadTreeRow) (utcnow : ℕ) : QuadTreeRow :=
  { q with lastModifiedTime := utcnow }

/-- `Overlay` row (lines 378-423), restricted to the schema-controlled fields
the pipeline touches plus the `extras` subfields it reads. -/
structure OverlayRow where
  key : ℕ
  lastModifiedTime : ℕ
  name : String
  description : String
  imageData : Option ℕ
  unalignedQuadTree : Option ℕ
  alignedQuadTree : Option ℕ
  isPublic : Bool
  extras : OverlayExtras
  deriving Repr, DecidableEq

/-- `Overlay.save` (lines 508-510). -/
def OverlayRow.save (o : OverlayRow) (utcnow : ℕ) : OverlayRow :=
  { o with lastModifiedTime := utcnow }

/-! ### Tile generator cache: `QuadTree.getGeneratorWithCache` (lines 222-249)

`cachedGeneratorG` holds at most one `{'key': ..., 'value': ...}` entry per
execution context; the initial `getattr` default `{'key': None, 'value':
None}` is modelled as `Option.none` (its `None` key compares unequal to every
derived key string, exactly as in Python).  `get_object_or_404` becomes a
`store` lookup function that may return no row. -/

/-- Python exception classes that can escape the modelled operations.
`preconditionError` stands for the explicit precondition failure the spec's
error taxonomy describes; the source never raises it. -/
inductive PyError where
  | attributeError
  | indexError
  | http404
  | externalToolFailure
  | preconditionError
  deriving Repr, DecidableEq

/-- A tile generator as built by `QuadTree.getGenerator`: warped
(`WarpedQuadTreeGenerator(id, image, json.loads(transform))`) when the
record's transform text is non-empty, else simple
(`SimpleQuadTreeGenerator(id, image)`).  The parsed transform dictionary is
kept in its serialized form. -/
inductive Generator where
  | warped (gid : ℕ) (image : ImageDataRow) (transformDict : String)
  | simple (gid : ℕ) (image : ImageDataRow)
  deriving DecidableEq

/-- The quadtree id a generator was built for. -/
def Generator.builtFor : Generator → ℕ
  | .warped gid _ _ => gid
  | .simple gid _ => gid

/-- `QuadTree.getGenerator` (lines 241-249).  `getImage()` dereferences
`self.imageData`, raising `AttributeError` when that foreign key is null. -/
def getGenerator (q : QuadTreeRow) : Except PyError Generator :=
  match q.imageData with
  | none => Except.error PyError.attributeError
  | some image =>
      if q.transform ≠ "" then
        Except.ok (Generator.warped q.id image q.transform)
      else
        Except.ok (Generator.simple q.id image)

/-- `QuadTree.getGeneratorCacheKey` (lines 222-224):
`'geocamTiePoint.QuadTreeGenerator.%s' % quadTreeId`. -/
def getGeneratorCacheKey (quadTreeId : ℕ) : String :=
  "geocamTiePoint.QuadTreeGenerator." ++ toString quadTreeId

/-- The per-context cache slot: `none` is the initial
`{'key': None, 'value': None}` state. -/
abbrev GeneratorCache := Option (String × Generator)

/-- The miss path of `getGeneratorWithCache`: fetch the row
(`get_object_or_404`), build its generator, store it as the sole cache entry
under the derived key, evicting whatever was held. -/
def rebuildGenerator (store : ℕ → Option QuadTreeRow) (key : String)
    (quadTreeId : ℕ) : Except PyError (Generator × GeneratorCache) :=
  match store quadTreeId with
  | none => Except.error PyError.http404
  | some q =>
      match getGenerator q with
      | Except.error e => Except.error e
      | Except.ok result => Except.ok (result, some (key, result))

/-- `QuadTree.getGeneratorWithCache` (lines 226-239), returning the generator
together with the cache slot as left behind. -/
def getGeneratorWithCache (store : ℕ → Option QuadTreeRow)
    (cache : GeneratorCache) (quadTreeId : ℕ) :
    Except PyError (Generator × GeneratorCache) :=
  let key := getGeneratorCacheKey quadTreeId
  match cache with
  | some (k, v) =>
      if k = key then Except.ok (v, cache)
      else rebuildGenerator store key quadTreeId
  | none => rebuildGenerator store key quadTreeId

/-- Cache consistency: whatever entry the slot holds was stored under the key
derived from the id its generator was built for. -/
def cacheConsistent (cache : GeneratorCache) : Prop :=
  ∀ k g, cache = some (k, g) → k = getGeneratorCacheKey g.builtFor

/-! ### Export orchestration (lines 290-375)

Each export reads the clock (`utcnow`), formats it with
`strftime('%Y-%m-%d-%H%M%S-UTC')`, and derives the artifact name
`<export-name>-<size-class>-<kind>_<timestamp>`; `<name>.tar.gz` plus the
archive bytes are then attached to the quadtree record's fields for that
kind.  Each export returns the record as left behind, paired with the
escaped exception, if any. -/

/-- A UTC wall-clock instant as read by `datetime.datetime.utcnow()`. -/
structure DateTime where
  year : ℕ
  month : ℕ
  day : ℕ
  hour : ℕ
  minute : ℕ
  second : ℕ
  deriving Repr, DecidableEq

/-- Two-digit zero-padded rendering of a field value below 100. -/
def pad2 (n : ℕ) : String :=
  if n < 10 then "0" ++ toString n else toString n

/-- `now.strftime('%Y-%m-%d-%H%M%S-UTC')` for in-range dates (four-digit
year; two-digit month, day, hour, minute, second). -/
def exportTimestamp (t : DateTime) : String :=
  toString t.year ++ "-" ++ pad2 t.month ++ "-" ++ pad2 t.day ++ "-" ++
    pad2 t.hour ++ pad2 t.minute ++ pad2 t.second ++ "-UTC"

/-- `QuadTree.generateHtmlExport` (lines 290-308).  The tile-pyramid
collaborator `writeQuadTree` yields the entries `gen.writeQuadTree(writer,
slug)` adds to the archive; `renderSimpleView` is the
`render_to_string`-backed `getSimpleViewHtml`; `dumps` the JSON serializer;
`μ` the type of the `metaJson` dictionary.  A failure while acquiring the
generator (missing row, null image reference) escapes before anything is
attached, leaving record and cache slot as they were. -/
def generateHtmlExport {μ : Type} (store : ℕ → Option QuadTreeRow)
    (cache : GeneratorCache) (writeQuadTree : Generator → String → TarData)
    (renderSimpleView : String → μ → String → String) (dumps : μ → String)
    (q : QuadTreeRow) (extras : OverlayExtras) (exportName : String)
    (metaJson : μ) (slug : String) (utcnow : DateTime) :
    (QuadTreeRow × GeneratorCache) × Option PyError :=
  let imgSize := getImageSizeType extras
  match getGeneratorWithCache store cache q.id with
  | Except.error e => ((q, cache), some e)
  | Except.ok (gen, cache2) =>
      let timestamp := exportTimestamp utcnow
      let htmlExportName := exportName ++ "-" ++ imgSize ++ "-html_" ++ timestamp
      let viewHtmlPath := "view.html"
      let tileRootUrl := "./" ++ slug
      let html := renderSimpleView tileRootUrl metaJson slug
      let entries : TarData := writeQuadTree gen slug ++
        [(viewHtmlPath, html), ("meta.json", dumps metaJson)]
      (({ q with htmlExportName := some (htmlExportName ++ ".tar.gz"),
                 htmlExport := some entries }, cache2), none)

/-- `Overlay.getRawImageData` (lines 426-431): the first `ImageData` row for
this overlay's key flagged `raw=True`; `none` models the `IndexError` case of
`imageData[0]` on an empty query set. -/
def getRawImageData (db : List ImageDataRow) (o : OverlayRow) :
    Option ImageDataRow :=
  (db.filter (fun r => (r.overlayKey == some o.key) && r.raw)).head?

/-- A live transform handle as returned by `transform.makeTransform`:
`forward` maps pixels to projected meters; `reverse` maps meters back to
pixels and may raise a domain error.  Float coordinates are modelled as
rationals. -/
structure Tform where
  forward : ℚ × ℚ → ℚ × ℚ
  reverse : ℚ × ℚ → Except String (ℚ × ℚ)

/-- The observable outcome of one `QuadTree.generateGeotiffExport` call: the
record as left behind, the escaped exception if any, and the data handed to
the external collaborators — the resolved center, the fitted camera model,
and the full argument tuple of the reprojection call
`(imgPath, vrtMetadata, srs, outPath)`, recorded iff that call was made. -/
structure GeotiffRun (Rpc Meta SRS : Type) where
  record : QuadTreeRow
  error : Option PyError
  centerLonLat : Option (ℚ × ℚ)
  fittedRpc : Option Rpc
  reprojectCall : Option (String × Meta × SRS × String)

/-- `QuadTree.generateGeotiffExport` (lines 311-348).  `overlay` is the row
found by `Overlay.objects.get(alignedQuadTree=self)`.  The center pixel uses
Python 2 integer floor division (`imageWidth / 2`).  The sampling function
handed to the external RPC fitter is this quadtree's own `reversePts`
(reverse mapping of the transform parsed from `q.transform`, composed with
the projection adapter).  `rawRow.image` models the stored image's URL;
`.replace('/data/', DATA_ROOT)` turns it into a filesystem path. -/
def generateGeotiffExport {Rpc Meta SRS : Type} (makeTransform : String → Tform)
    (metersToLatLon lonLatToMeters : ℚ × ℚ → ℚ × ℚ)
    (fitRpcToModel :
      (List (ℚ × ℚ × ℚ) → Except String (Option (List (ℚ × ℚ)))) →
      ℤ → ℤ → ℚ → ℚ → Rpc)
    (getVrtMetadata : Rpc → Meta)
    (reproject : String → Meta → SRS → String → Except PyError String)
    (epsg4326 : SRS) (dataRoot : String) (db : List ImageDataRow)
    (overlay : OverlayRow) (q : QuadTreeRow) (exportName : String)
    (utcnow : DateTime) : GeotiffRun Rpc Meta SRS :=
  let imgSize := getImageSizeType overlay.extras
  let timestamp := exportTimestamp utcnow
  let imageWidth := overlay.extras.imageSize.1
  let imageHeight := overlay.extras.imageSize.2
  match overlay.extras.transform with
  | none => ⟨q, some PyError.attributeError, none, none, none⟩
  | some transformDict =>
      let tform := makeTransform transformDict
      let centerMeters := tform.forward
        (((imageWidth.fdiv 2 : ℤ) : ℚ), ((imageHeight.fdiv 2 : ℤ) : ℚ))
      let center := metersToLatLon centerMeters
      let tRpc := fitRpcToModel
        (reversePts (makeTransform q.transform).reverse lonLatToMeters)
        imageWidth imageHeight center.1 center.2
      match getRawImageData db overlay with
      | none => ⟨q, some PyError.indexError, some center, some tRpc, none⟩
      | some rawRow =>
          let imgPath := rawRow.image.replace "/data/" dataRoot
          let geotiffExportName := exportName ++ "-" ++ imgSize ++
            "-geotiff_" ++ timestamp
          let geotiffFolderPath := dataRoot ++ "geocamTiePoint/export/" ++
            geotiffExportName
          let fullFilePath := geotiffFolderPath ++ "/" ++ geotiffExportName ++
            ".tif"
          match reproject imgPath (getVrtMetadata tRpc) epsg4326 fullFilePath with
          | Except.error e =>
              ⟨q, some e, some center, some tRpc,
               some (imgPath, getVrtMetadata tRpc, epsg4326, fullFilePath)⟩
          | Except.ok tifBytes =>
              let arcName := geotiffExportName ++ ".tif"
              ⟨{ q with
                   geotiffExportName := some (geotiffExportName ++ ".tar.gz"),
                   geotiffExport :=
                     some [(geotiffExportName ++ "/" ++ arcName, tifBytes)] },
               none, some center, some tRpc,
               some (imgPath, getVrtMetadata tRpc, epsg4326, fullFilePath)⟩

/-- `QuadTree.generateKmlExport` (lines 351-375).  The input raster path is
derived by string-manipulating the recorded GeoTIFF artifact name; when no
GeoTIFF export has ever recorded one, that name is `None` and
`None.replace('.tar.gz', '')` raises `AttributeError` — there is no explicit
precondition check.  `gdal2tilesProcess` is the external
`GDAL2Tiles([...]).process()` re-tiling run, yielding the KML tile tree
added to the archive. -/
def generateKmlExport (gdal2tilesProcess : String → String → Except PyError TarData)
    (dataRoot : String) (q : QuadTreeRow) (extras : OverlayExtras)
    (exportName : String) (utcnow : DateTime) : QuadTreeRow × Option PyError :=
  let imgSize := getImageSizeType extras
  let timestamp := exportTimestamp utcnow
  let kmlExportName := exportName ++ "-" ++ imgSize ++ "-kml_" ++ timestamp
  let kmlFolderPath := dataRoot ++ "geocamTiePoint/export/" ++ kmlExportName
  match q.geotiffExportName with
  | none => (q, some PyError.attributeError)
  | some recorded =>
      let inputFile0 := recorded.replace ".tar.gz" ""
      let inputFile := dataRoot ++ "geocamTiePoint/export/" ++ inputFile0 ++
        "/" ++ inputFile0 ++ ".tif"
      match gdal2tilesProcess inputFile kmlFolderPath with
      | Except.error e => (q, some e)
      | Except.ok tiles =>
          ({ q with kmlExportName := some (kmlExportName ++ ".tar.gz"),
                    kmlExport := some tiles }, none)

/-- `Overlay.generateAlignedQuadTree` (lines 528-537).  The
`extras.get('transform') is None` guard conflates an absent `transform` entry
with an explicit null, exactly as `Option` does here.  On the transform-
present path the new quadtree's image data is the overlay's *raw* row
(`getRawImageData`), not `self.imageData`; the row is stamped by
`QuadTree.save` and referenced from `self.alignedQuadTree` (the overlay
itself is not re-persisted here). -/
def generateAlignedQuadTree (dumps : String → String) (db : List ImageDataRow)
    (freshId : ℕ) (utcnow : ℕ) (o : OverlayRow) :
    Except PyError (Option QuadTreeRow × OverlayRow) :=
  match o.extras.transform with
  | none => Except.ok (none, o)
  | some transformDict =>
      match getRawImageData db o with
      | none => Except.error PyError.indexError
      | some originalImageData =>
          let qt0 : QuadTreeRow :=
            { id := freshId, lastModifiedTime := 0,
              imageData := some originalImageData,
              transform := dumps transformDict,
              htmlExportName := none, htmlExport := none,
              kmlExportName := none, kmlExport := none,
              geotiffExportName := none, geotiffExport := none,
              unusedTime := none }
          let qt := qt0.save utcnow
          Except.ok (some qt, { o with alignedQuadTree := some qt.id })

/-! ### Injectivity of the decimal cache-key rendering

The cache-soundness half of the claim about `getGeneratorWithCache` needs the
key derivation to be injective in the quadtree id, i.e. decimal rendering of
naturals to be injective.  We prove it by relating the core printer
`Nat.toDigits` to `Nat.digits`. -/

theorem toDigitsCore_eq_digits :
    ∀ fuel n : ℕ, 0 < n → n < fuel → ∀ ds : List Char,
      Nat.toDigitsCore 10 fuel n ds =
        ((Nat.digits 10 n).map Nat.digitChar).reverse ++ ds := by
  intro fuel
  induction fuel with
  | zero => intro n _ h; exact absurd h (Nat.not_lt_zero n)
  | succ fuel ih =>
      intro n hn hlt ds
      by_cases hdiv : n / 10 = 0
      · have hn10 : n < 10 := by omega
        have hdig : Nat.digits 10 n = [n] :=
          Nat.digits_of_lt 10 n (by omega) hn10
        simp [Nat.toDigitsCore, hdiv, hdig, Nat.mod_eq_of_lt hn10]
      · have hpos : 0 < n / 10 := Nat.pos_of_ne_zero hdiv
        have hfuel : n / 10 < fuel := by omega
        have hrec := ih (n / 10) hpos hfuel (Nat.digitChar (n % 10) :: ds)
        have hdig := Nat.digits_def' (by norm_num : (1 : ℕ) < 10) hn
        simp [Nat.toDigitsCore, hdiv, hrec, hdig, List.append_assoc]

theorem toDigits_eq_digits (n : ℕ) (hn : 0 < n) :
    Nat.toDigits 10 n = ((Nat.digits 10 n).map Nat.digitChar).reverse := by
  have h := toDigitsCore_eq_digits (n + 1) n hn (Nat.lt_succ_self n) []
  simpa [Nat.toDigits] using h

theorem digitChar_inj_of_lt :
    ∀ a < 10, ∀ b < 10, Nat.digitChar a = Nat.digitChar b → a = b := by decide

theorem map_digitChar_inj :
    ∀ l1 l2 : List ℕ, (∀ d ∈ l1, d < 10) → (∀ d ∈ l2, d < 10) →
      l1.map Nat.digitChar = l2.map Nat.digitChar → l1 = l2
  | [], [], _, _, _ => rfl
  | [], _ :: _, _, _, h => by simp at h
  | _ :: _, [], _, _, h => by simp at h
  | a :: l1, b :: l2, h1, h2, h => by
      simp only [List.map_cons, List.cons.injEq] at h
      have hab := digitChar_inj_of_lt a (h1 a (List.mem_cons_self a l1))
        b (h2 b (List.mem_cons_self b l2)) h.1
      have htl := map_digitChar_inj l1 l2
        (fun d hd => h1 d (List.mem_cons_of_mem _ hd))
        (fun d hd => h2 d (List.mem_cons_of_mem _ hd)) h.2
      rw [hab, htl]

theorem toDigits_pos_ne_zero {n : ℕ} (hn : 0 < n) :
    Nat.toDigits 10 n ≠ Nat.toDigits 10 0 := by
  intro h
  rw [toDigits_eq_digits n hn] at h
  have h0 : Nat.toDigits 10 0 = ['0'] := by decide
  rw [h0] at h
  have hmap : (Nat.digits 10 n).map Nat.digitChar = ['0'] := by
    have := congrArg List.reverse h
    simpa using this
  rcases hd : Nat.digits 10 n with _ | ⟨d, tl⟩
  · exact Nat.digits_ne_nil_iff_ne_zero.mpr (Nat.pos_iff_ne_zero.mp hn) hd
  · rw [hd] at hmap
    simp only [List.map_cons, List.cons.injEq] at hmap
    have htl : tl = [] := by
      cases tl with
      | nil => rfl
      | cons x xs => simp at hmap
    have hdlt : d < 10 := Nat.digits_lt_base (by norm_num)
      (hd ▸ List.mem_cons_self d tl)
    have hd0 : d = 0 := digitChar_inj_of_lt d hdlt 0 (by norm_num) hmap.1
    have hdig0 : Nat.digits 10 n = [0] := by rw [hd, htl, hd0]
    have hn0 : n = 0 := by
      have hof := Nat.ofDigits_digits 10 n
      rw [hdig0] at hof
      simpa [Nat.ofDigits] using hof.symm
    omega

theorem natReprInjective : Function.Injective Nat.repr := by
  intro a b h
  have hdata : Nat.toDigits 10 a = Nat.toDigits 10 b := congrArg String.data h
  rcases Nat.eq_zero_or_pos a with ha | ha <;>
    rcases Nat.eq_zero_or_pos b with hb | hb
  · rw [ha, hb]
  · exact absurd hdata.symm (ha ▸ toDigits_pos_ne_zero hb)
  · exact absurd hdata (hb ▸ toDigits_pos_ne_zero ha)
  · rw [toDigits_eq_digits a ha, toDigits_eq_digits b hb] at hdata
    have hmap := List.reverse_inj.mp hdata
    have hdig := map_digitChar_inj _ _
      (fun d hd => Nat.digits_lt_base (by norm_num) hd)
      (fun d hd => Nat.digits_lt_base (by norm_num) hd) hmap
    calc a = Nat.ofDigits 10 (Nat.digits 10 a) := (Nat.ofDigits_digits 10 a).symm
      _ = Nat.ofDigits 10 (Nat.digits 10 b) := by rw [hdig]
      _ = b := Nat.ofDigits_digits 10 b

theorem getGeneratorCacheKey_injective :
    Function.Injective getGeneratorCacheKey := by
  intro a b h
  have hdata := congrArg String.data h
  simp only [getGeneratorCacheKey, String.data_append] at hdata
  exact natReprInjective (String.ext (List.append_cancel_left hdata))

/-! ### Theorems for C1, C2, C7, C10 -/

/-- On a run where every `reverse` call succeeds, the loop starting from an
already-built matrix appends the image of each remaining column in order. -/
theorem reversePtsLoop_ok {α ε : Type} (revF lonLatToMeters : α × α → α × α)
    (pts : List (α × α × α)) :
    (∀ acc : List (α × α),
        reversePtsLoop (fun p => (Except.ok (revF p) : Except ε (α × α)))
          lonLatToMeters pts (some acc) =
          Except.ok (some (acc ++ pts.map (reverseCol revF lonLatToMeters)))) ∧
    reversePtsLoop (fun p => (Except.ok (revF p) : Except ε (α × α)))
        lonLatToMeters pts none =
      Except.ok (if pts.isEmpty then none
                 else some (pts.map (reverseCol revF lonLatToMeters))) := by
  induction pts with
  | nil => exact ⟨fun acc => by simp [reversePtsLoop], by simp [reversePtsLoop]⟩
  | cons c rest ih =>
      refine ⟨fun acc => ?_, ?_⟩
      · simp only [reversePtsLoop, ih.1, List.map_cons, reverseCol]
        simp
      · simp only [reversePtsLoop, ih.1, List.map_cons, reverseCol]
        simp

/-- Claim C1 (amended): when the reverse mapping is defined on every sampled
point, `reversePts` maps each input column, in order, to the reverse-mapped
projection of its first two entries — the output has exactly N columns with
positional correspondence — except that an empty input yields Python `None`
(`Option.none`), not an empty pixel matrix. -/
theorem reversePts_columns_in_order {α ε : Type}
    (revF lonLatToMeters : α × α → α × α) (toPts : List (α × α × α)) :
    reversePts (fun p => (Except.ok (revF p) : Except ε (α × α)))
        lonLatToMeters toPts =
      Except.ok (if toPts.isEmpty then none
                 else some (toPts.map (reverseCol revF lonLatToMeters))) :=
  (reversePtsLoop_ok revF lonLatToMeters toPts).2

/-- Counterexample to claim C1 as stated: on the empty input, `reversePts`
returns `None` (the accumulator was never initialized), not an empty pixel
matrix. -/
theorem reversePts_empty_input_yields_none :
    reversePts (fun p : ℤ × ℤ => (Except.ok p : Except String (ℤ × ℤ)))
        (fun p => p) [] ≠
      Except.ok (some ([] : List (ℤ × ℤ))) := by
  simp [reversePts, reversePtsLoop]

/-- If the reverse mapping fails on the column at index `i` while succeeding
on every earlier column, the loop — from any accumulator state — aborts with
exactly the error raised there. -/
theorem reversePtsLoop_error {α ε : Type} (rev : α × α → Except ε (α × α))
    (lonLatToMeters : α × α → α × α) :
    ∀ (pts : List (α × α × α)) (i : ℕ) (hi : i < pts.length) (e : ε),
      rev (lonLatToMeters
        ((pts.get ⟨i, hi⟩).1, (pts.get ⟨i, hi⟩).2.1)) = Except.error e →
      (∀ j (hj : j < pts.length), j < i →
        ∃ q, rev (lonLatToMeters
          ((pts.get ⟨j, hj⟩).1, (pts.get ⟨j, hj⟩).2.1)) = Except.ok q) →
      ∀ pixels, reversePtsLoop rev lonLatToMeters pts pixels = Except.error e := by
  intro pts
  induction pts with
  | nil => intro i hi; exact absurd hi (by simp)
  | cons c rest ih =>
      intro i hi e hfail hpre pixels
      match i with
      | 0 =>
          simp only [List.get] at hfail
          simp [reversePtsLoop, hfail]
      | i' + 1 =>
          obtain ⟨q, hq⟩ := hpre 0 (by simp) (Nat.succ_pos i')
          simp only [List.get] at hq hfail
          have hrec := ih i' (by simpa using Nat.lt_of_succ_lt_succ hi) e hfail
            (fun j hj hji =>
              hpre (j + 1) (by simpa using Nat.succ_lt_succ hj)
                (Nat.succ_lt_succ hji))
          cases pixels <;> simp [reversePtsLoop, hq, hrec]

/-- Claim C2 (amended): when the reverse mapping is undefined for the world
point in column `i` (and defined for all earlier columns), `reversePts`
aborts at that column and propagates the reverse mapping's own error to its
caller unchanged — no value is substituted or clamped for that column and no
matrix is returned — but the surfaced error is the raw one; it carries no tag
identifying the offending column index. -/
theorem reversePts_error_propagates_raw {α ε : Type}
    (rev : α × α → Except ε (α × α)) (lonLatToMeters : α × α → α × α)
    (toPts : List (α × α × α)) (i : ℕ) (hi : i < toPts.length) (e : ε)
    (hfail : rev (lonLatToMeters
      ((toPts.get ⟨i, hi⟩).1, (toPts.get ⟨i, hi⟩).2.1)) = Except.error e)
    (hpre : ∀ j (hj : j < toPts.length), j < i →
      ∃ q, rev (lonLatToMeters
        ((toPts.get ⟨j, hj⟩).1, (toPts.get ⟨j, hj⟩).2.1)) = Except.ok q) :
    reversePts rev lonLatToMeters toPts = Except.error e :=
  reversePtsLoop_error rev lonLatToMeters toPts i hi e hfail hpre none

/-- A concrete reverse mapping whose domain excludes the point (5, 5): there
it raises a domain error; everywhere else it is the identity. -/
def badRev (p : ℤ × ℤ) : Except String (ℤ × ℤ) :=
  if p = (5, 5) then Except.error "outside domain" else Except.ok p

/-- Witness for C2's theorem: with the reverse mapping undefined at (5, 5),
the input whose column 1 is (5, 5, 0) makes `reversePts` surface that very
domain error. -/
theorem reversePts_error_propagates_raw_witness :
    reversePts badRev (fun p => p) [((0 : ℤ), 0, 0), (5, 5, 0)] =
      Except.error "outside domain" :=
  reversePts_error_propagates_raw badRev (fun p => p)
    [((0 : ℤ), 0, 0), (5, 5, 0)] 1 (by decide) "outside domain" rfl
    (fun j _ hji =>
      match j, hji with
      | 0, _ => ⟨((0 : ℤ), 0), rfl⟩)

/-- Counterexample to claim C2 as stated: the error surfaced by `reversePts`
is not tagged with the offending column index.  With the same reverse mapping
(undefined exactly at (5, 5)), an input failing at column 0 and an input
failing at column 1 produce literally the same error value, so the caller
cannot recover the offending column index from it. -/
theorem reversePts_error_carries_no_column_index :
    reversePts badRev (fun p => p) [((5 : ℤ), 5, 0)] =
        Except.error "outside domain" ∧
      reversePts badRev (fun p => p) [((0 : ℤ), 0, 0), (5, 5, 0)] =
        Except.error "outside domain" :=
  ⟨rfl, rfl⟩

/-- Claim C7: size-class derivation is a pure function of the original image
width read from overlay metadata: widths strictly below 1200 give "small",
widths of 1200 or more give "large", and any two extras with the same width
classify identically. -/
theorem getImageSizeType_pure_width_threshold (extras : OverlayExtras) :
    (extras.imageSize.1 < 1200 → getImageSizeType extras = "small") ∧
    (1200 ≤ extras.imageSize.1 → getImageSizeType extras = "large") ∧
    (∀ extras2 : OverlayExtras, extras2.imageSize.1 = extras.imageSize.1 →
      getImageSizeType extras2 = getImageSizeType extras) := by
  refine ⟨fun h => ?_, fun h => ?_, fun extras2 h => ?_⟩
  · simp [getImageSizeType, h]
  · simp [getImageSizeType, not_lt.mpr h]
  · simp [getImageSizeType, h]

/-- Witness for C7's theorem: width 1199 classifies "small", width 1200
classifies "large". -/
theorem getImageSizeType_pure_width_threshold_witness :
    getImageSizeType ⟨(1199, 800), none⟩ = "small" ∧
      getImageSizeType ⟨(1200, 800), none⟩ = "large" :=
  ⟨(getImageSizeType_pure_width_threshold ⟨(1199, 800), none⟩).1 (by decide),
   (getImageSizeType_pure_width_threshold ⟨(1200, 800), none⟩).2.1 (by decide)⟩

/-- A generator built by `getGenerator` is built for the row's own id. -/
theorem getGenerator_builtFor {q : QuadTreeRow} {g : Generator}
    (h : getGenerator q = Except.ok g) : g.builtFor = q.id := by
  unfold getGenerator at h
  cases hq : q.imageData <;> simp only [hq] at h
  · cases h
  · by_cases ht : q.transform = ""
    · rw [if_neg (not_not_intro ht)] at h
      cases h
      rfl
    · rw [if_pos ht] at h
      cases h
      rfl

/-- The miss path returns a generator built for the requested id and leaves
exactly the one new entry behind. -/
theorem rebuildGenerator_sound (store : ℕ → Option QuadTreeRow)
    (quadTreeId : ℕ) (hstore : ∀ i q, store i = some q → q.id = i)
    (g : Generator) (cache2 : GeneratorCache)
    (h : rebuildGenerator store (getGeneratorCacheKey quadTreeId) quadTreeId =
      Except.ok (g, cache2)) :
    g.builtFor = quadTreeId ∧
      cache2 = some (getGeneratorCacheKey quadTreeId, g) := by
  unfold rebuildGenerator at h
  cases hs : store quadTreeId <;> simp only [hs] at h
  · cases h
  · rename_i q
    cases hg : getGenerator q <;> simp only [hg] at h
    · cases h
    · cases h
      exact ⟨(getGenerator_builtFor hg).trans (hstore _ _ hs), rfl⟩

/-- Claim C3: the cache returns the stored generator unchanged exactly when
the stored key equals the key derived from the requested id; on any mismatch
it fetches the row, builds the appropriate generator variant (warped iff the
transform text is non-empty), stores it as the sole entry under the derived
key (evicting the previous entry), and returns it; and — provided the store
returns rows under their own id and the cache entry was stored consistently —
the returned generator is always built for the requested quadtree id, with
consistency preserved for the next lookup. -/
theorem getGeneratorWithCache_policy (store : ℕ → Option QuadTreeRow)
    (cache : GeneratorCache) (quadTreeId : ℕ)
    (hstore : ∀ i q, store i = some q → q.id = i)
    (hinv : cacheConsistent cache) :
    (∀ g, cache = some (getGeneratorCacheKey quadTreeId, g) →
      getGeneratorWithCache store cache quadTreeId = Except.ok (g, cache)) ∧
    ((∀ g, cache ≠ some (getGeneratorCacheKey quadTreeId, g)) →
      ∀ q img, store quadTreeId = some q → q.imageData = some img →
        getGeneratorWithCache store cache quadTreeId =
          Except.ok
            ((if q.transform ≠ "" then Generator.warped q.id img q.transform
              else Generator.simple q.id img),
             some (getGeneratorCacheKey quadTreeId,
               if q.transform ≠ "" then Generator.warped q.id img q.transform
               else Generator.simple q.id img))) ∧
    (∀ g cache2,
      getGeneratorWithCache store cache quadTreeId = Except.ok (g, cache2) →
        g.builtFor = quadTreeId ∧ cacheConsistent cache2) := by
  refine ⟨?_, ?_, ?_⟩
  · intro g hg
    subst hg
    simp [getGeneratorWithCache]
  · intro hmiss q img hs himg
    have hrebuild : rebuildGenerator store (getGeneratorCacheKey quadTreeId)
        quadTreeId =
        Except.ok
          ((if q.transform ≠ "" then Generator.warped q.id img q.transform
            else Generator.simple q.id img),
           some (getGeneratorCacheKey quadTreeId,
             if q.transform ≠ "" then Generator.warped q.id img q.transform
             else Generator.simple q.id img)) := by
      unfold rebuildGenerator getGenerator
      simp only [hs, himg]
      by_cases ht : q.transform ≠ "" <;> simp [ht]
    cases hc : cache with
    | none => simpa [getGeneratorWithCache] using hrebuild
    | some kv =>
        obtain ⟨k, v⟩ := kv
        have hk : k ≠ getGeneratorCacheKey quadTreeId := by
          intro hkey
          exact hmiss v (by rw [hc, hkey])
        simpa [getGeneratorWithCache, hk] using hrebuild
  · intro g cache2 h
    have hsound : g.builtFor = quadTreeId ∧
        cache2 = some (getGeneratorCacheKey quadTreeId, g) ∨
        (g.builtFor = quadTreeId ∧ cache2 = cache) := by
      cases hc : cache with
      | none =>
          rw [hc] at h
          exact Or.inl (rebuildGenerator_sound store quadTreeId hstore g cache2
            (by simpa [getGeneratorWithCache] using h))
      | some kv =>
          obtain ⟨k, v⟩ := kv
          rw [hc] at h
          by_cases hk : k = getGeneratorCacheKey quadTreeId
          · right
            subst hk
            simp only [getGeneratorWithCache, if_pos rfl] at h
            cases h
            have hkv := hinv _ _ hc
            exact ⟨getGeneratorCacheKey_injective hkv.symm, rfl⟩
          · left
            simp only [getGeneratorWithCache, hk, if_false] at h
            exact rebuildGenerator_sound store quadTreeId hstore g cache2 h
    rcases hsound with ⟨hb, hc2⟩ | ⟨hb, hc2⟩
    · subst hc2
      exact ⟨hb, fun k' g' h' => by
        cases h'
        rw [hb]⟩
    · subst hc2
      exact ⟨hb, hinv⟩

/-- A concrete raw image row used by witnesses. -/
def sampleImageRow : ImageDataRow :=
  ⟨1, 0, "geocamTiePoint/overlay_images/a.png", "image/png", some 7, "",
   none, 0, 0, 0, true⟩

/-- A concrete unwarped quadtree row used by witnesses. -/
def sampleQuadTreeRow : QuadTreeRow :=
  ⟨4, 0, some sampleImageRow, "", none, none, none, none, none, none, none⟩

/-- A concrete store that holds `sampleQuadTreeRow` under id 4. -/
def sampleStore : ℕ → Option QuadTreeRow :=
  fun i => if i = 4 then some sampleQuadTreeRow else none

/-- Witness for C3's theorem: with the slot holding the generator for id 4
under its derived key, looking up id 4 is a hit returning that very generator
with the slot untouched. -/
theorem getGeneratorWithCache_policy_witness :
    getGeneratorWithCache sampleStore
      (some (getGeneratorCacheKey 4, Generator.simple 4 sampleImageRow)) 4 =
      Except.ok (Generator.simple 4 sampleImageRow,
        some (getGeneratorCacheKey 4, Generator.simple 4 sampleImageRow)) :=
  (getGeneratorWithCache_policy sampleStore
      (some (getGeneratorCacheKey 4, Generator.simple 4 sampleImageRow)) 4
      (fun i q h => by
        simp only [sampleStore] at h
        split at h
        · rename_i hi
          cases h
          simp [sampleQuadTreeRow, hi]
        · cases h)
      (fun k g h => by cases h; rfl)).1
    (Generator.simple 4 sampleImageRow) rfl

/-- Claim C10: each of the three `save` overrides (`ImageData.save`,
`QuadTree.save`, `Overlay.save`) stamps the record's `lastModifiedTime` with
the current UTC time before delegating to the persisting base `save`, so the
record as persisted carries the time of this very save — never an older
modification time. -/
theorem save_stamps_lastModifiedTime :
    (∀ (r : ImageDataRow) (utcnow : ℕ),
      (r.save utcnow).lastModifiedTime = utcnow) ∧
    (∀ (q : QuadTreeRow) (utcnow : ℕ),
      (q.save utcnow).lastModifiedTime = utcnow) ∧
    (∀ (o : OverlayRow) (utcnow : ℕ),
      (o.save utcnow).lastModifiedTime = utcnow) :=
  ⟨fun _ _ => rfl, fun _ _ => rfl, fun _ _ => rfl⟩

/-- A concrete overlay row used by witnesses: key 7, image size 2000×1000,
serialized transform "T"; `sampleImageRow` is its raw image row. -/
def sampleOverlayRow : OverlayRow :=
  ⟨7, 0, "foo.png", "", some 1, none, none, false, ⟨(2000, 1000), some "T"⟩⟩

/-- Claim C6: a completed HTML export attaches the artifact name
`<export-name>-<size-class>-html_<YYYY-MM-DD-HHMMSS-UTC>.tar.gz` and an
archive consisting of the generator's tile pyramid followed by the
`view.html` page and the `meta.json` document, and lets no exception
escape. -/
theorem generateHtmlExport_artifact {μ : Type} (store : ℕ → Option QuadTreeRow)
    (cache : GeneratorCache) (writeQuadTree : Generator → String → TarData)
    (renderSimpleView : String → μ → String → String) (dumpsFn : μ → String)
    (q : QuadTreeRow) (extras : OverlayExtras) (exportName : String)
    (metaJson : μ) (slug : String) (utcnow : DateTime) (gen : Generator)
    (cache2 : GeneratorCache)
    (hgen : getGeneratorWithCache store cache q.id = Except.ok (gen, cache2)) :
    (generateHtmlExport store cache writeQuadTree renderSimpleView dumpsFn q
        extras exportName metaJson slug utcnow).1.1.htmlExportName =
      some (exportName ++ "-" ++ getImageSizeType extras ++ "-html_" ++
        exportTimestamp utcnow ++ ".tar.gz") ∧
    (generateHtmlExport store cache writeQuadTree renderSimpleView dumpsFn q
        extras exportName metaJson slug utcnow).1.1.htmlExport =
      some (writeQuadTree gen slug ++
        [("view.html", renderSimpleView ("./" ++ slug) metaJson slug),
         ("meta.json", dumpsFn metaJson)]) ∧
    (generateHtmlExport store cache writeQuadTree renderSimpleView dumpsFn q
        extras exportName metaJson slug utcnow).2 = none := by
  refine ⟨?_, ?_, ?_⟩ <;> simp [generateHtmlExport, hgen]

/-- Witness for C6's theorem: export name `mapfasten-foo`, width 2000
(classified "large"), clock at 2024-01-02 03:04:05 UTC — the artifact is
named `mapfasten-foo-large-html_2024-01-02-030405-UTC.tar.gz` and the
archive holds the tile pyramid, `view.html`, and `meta.json`. -/
theorem generateHtmlExport_artifact_witness :
    (generateHtmlExport sampleStore none
        (fun _ _ => [("foo/0/0/0.png", "tilebytes")]) (fun _ _ _ => "viewbytes")
        (fun m => m) sampleQuadTreeRow ⟨(2000, 1000), none⟩ "mapfasten-foo"
        "metabytes" "foo" ⟨2024, 1, 2, 3, 4, 5⟩).1.1.htmlExportName =
      some "mapfasten-foo-large-html_2024-01-02-030405-UTC.tar.gz" ∧
    (generateHtmlExport sampleStore none
        (fun _ _ => [("foo/0/0/0.png", "tilebytes")]) (fun _ _ _ => "viewbytes")
        (fun m => m) sampleQuadTreeRow ⟨(2000, 1000), none⟩ "mapfasten-foo"
        "metabytes" "foo" ⟨2024, 1, 2, 3, 4, 5⟩).1.1.htmlExport =
      some [("foo/0/0/0.png", "tilebytes"), ("view.html", "viewbytes"),
        ("meta.json", "metabytes")] := by
  have h := generateHtmlExport_artifact sampleStore none
    (fun _ _ => [("foo/0/0/0.png", "tilebytes")]) (fun _ _ _ => "viewbytes")
    (fun m => m) sampleQuadTreeRow ⟨(2000, 1000), none⟩ "mapfasten-foo"
    "metabytes" "foo" ⟨2024, 1, 2, 3, 4, 5⟩
    (Generator.simple 4 sampleImageRow)
    (some (getGeneratorCacheKey 4, Generator.simple 4 sampleImageRow)) rfl
  exact ⟨h.1, h.2.1⟩

/-- Claim C4 (amended): requesting a KML export on a record with no recorded
GeoTIFF artifact fails — not with an explicit precondition error, but with
the `AttributeError` raised by string-manipulating the absent artifact name
(`None.replace('.tar.gz', '')`); the export is aborted with the record
unchanged, so no KML artifact name or bytes is attached. -/
theorem generateKmlExport_missing_geotiff
    (gdal2tilesProcess : String → String → Except PyError TarData)
    (dataRoot : String) (q : QuadTreeRow) (extras : OverlayExtras)
    (exportName : String) (utcnow : DateTime)
    (h : q.geotiffExportName = none) :
    generateKmlExport gdal2tilesProcess dataRoot q extras exportName utcnow =
      (q, some PyError.attributeError) ∧
    (generateKmlExport gdal2tilesProcess dataRoot q extras exportName
        utcnow).2 ≠ some PyError.preconditionError := by
  refine ⟨?_, ?_⟩ <;> simp [generateKmlExport, h]

/-- Witness for C4's theorem: on a concrete record whose
`geotiffExportName` is null, the KML export returns the record unchanged
with an `AttributeError`. -/
theorem generateKmlExport_missing_geotiff_witness :
    generateKmlExport (fun _ _ => Except.ok []) "/x/" sampleQuadTreeRow
        ⟨(2000, 1000), none⟩ "mapfasten-foo" ⟨2024, 1, 2, 3, 4, 5⟩ =
      (sampleQuadTreeRow, some PyError.attributeError) :=
  (generateKmlExport_missing_geotiff (fun _ _ => Except.ok []) "/x/"
    sampleQuadTreeRow ⟨(2000, 1000), none⟩ "mapfasten-foo"
    ⟨2024, 1, 2, 3, 4, 5⟩ rfl).1

/-- Counterexample to claim C4 as stated: at a concrete record with no prior
GeoTIFF artifact, the KML export fails with `AttributeError`, which is not a
precondition error — the code performs no precondition check. -/
theorem generateKmlExport_missing_geotiff_counterexample :
    (generateKmlExport (fun _ _ => Except.ok []) "/x/" sampleQuadTreeRow
        ⟨(2000, 1000), none⟩ "mapfasten-foo" ⟨2024, 1, 2, 3, 4, 5⟩).2 =
      some PyError.attributeError ∧
    some PyError.attributeError ≠ some PyError.preconditionError :=
  ⟨rfl, by decide⟩

/-- Claim C5: under the transform recorded on the overlay at export time, the
GeoTIFF export resolves the center by forward-mapping the image-center pixel
(floor of width/2 and height/2) through exactly that transform and converting
the result to geodetic coordinates; the fitted camera model is obtained from
the external fitter seeded with this quadtree's `reversePts` sampling
function, the image dimensions, and that center; and whenever the
reprojection step is invoked, the metadata it consumes is the fitted model's
own `getVrtMetadata` — so the fit strictly precedes reprojection. -/
theorem generateGeotiffExport_center_fit_reproject {Rpc Meta SRS : Type}
    (makeTransform : String → Tform)
    (metersToLatLon lonLatToMeters : ℚ × ℚ → ℚ × ℚ)
    (fitRpcToModel :
      (List (ℚ × ℚ × ℚ) → Except String (Option (List (ℚ × ℚ)))) →
      ℤ → ℤ → ℚ → ℚ → Rpc)
    (getVrtMetadata : Rpc → Meta)
    (reproject : String → Meta → SRS → String → Except PyError String)
    (epsg4326 : SRS) (dataRoot : String) (db : List ImageDataRow)
    (overlay : OverlayRow) (q : QuadTreeRow) (exportName : String)
    (utcnow : DateTime) (transformDict : String)
    (ht : overlay.extras.transform = some transformDict)
    (run : GeotiffRun Rpc Meta SRS)
    (hrun : run = generateGeotiffExport makeTransform metersToLatLon
      lonLatToMeters fitRpcToModel getVrtMetadata reproject epsg4326 dataRoot
      db overlay q exportName utcnow) :
    run.centerLonLat = some (metersToLatLon ((makeTransform transformDict).forward
        (((overlay.extras.imageSize.1.fdiv 2 : ℤ) : ℚ),
         ((overlay.extras.imageSize.2.fdiv 2 : ℤ) : ℚ)))) ∧
    run.fittedRpc = some (fitRpcToModel
        (reversePts (makeTransform q.transform).reverse lonLatToMeters)
        overlay.extras.imageSize.1 overlay.extras.imageSize.2
        (metersToLatLon ((makeTransform transformDict).forward
          (((overlay.extras.imageSize.1.fdiv 2 : ℤ) : ℚ),
           ((overlay.extras.imageSize.2.fdiv 2 : ℤ) : ℚ)))).1
        (metersToLatLon ((makeTransform transformDict).forward
          (((overlay.extras.imageSize.1.fdiv 2 : ℤ) : ℚ),
           ((overlay.extras.imageSize.2.fdiv 2 : ℤ) : ℚ)))).2) ∧
    (∀ call, run.reprojectCall = some call →
      ∃ r, run.fittedRpc = some r ∧ call.2.1 = getVrtMetadata r) := by
  subst hrun
  unfold generateGeotiffExport
  simp only [ht]
  refine ⟨?_, ?_, ?_⟩
  · cases hraw : getRawImageData db overlay <;>
      (simp only [hraw]
       all_goals first
       | rfl
       | (split <;> rfl))
  · cases hraw : getRawImageData db overlay <;>
      (simp only [hraw]
       all_goals first
       | rfl
       | (split <;> rfl))
  · cases hraw : getRawImageData db overlay <;>
      (simp only [hraw]
       all_goals first
       | (intro call hcall; cases hcall)
       | (split <;> (intro call hcall; cases hcall; exact ⟨_, rfl, rfl⟩)))

/-- Witness for C5's theorem: with identity projection and transform handles
and a 2000×1000 image, the resolved center is pixel (1000, 500) carried
through unchanged, and the (trivial) camera model was fitted. -/
theorem generateGeotiffExport_center_fit_reproject_witness :
    (generateGeotiffExport (fun _ => ⟨fun p => p, fun p => Except.ok p⟩)
        (fun p => p) (fun p => p) (fun _ _ _ _ _ => ()) (fun _ => ())
        (fun _ _ _ _ => Except.ok "tifbytes") () "/x/" [sampleImageRow]
        sampleOverlayRow sampleQuadTreeRow "mapfasten-foo"
        ⟨2024, 1, 2, 3, 4, 5⟩ : GeotiffRun Unit Unit Unit).centerLonLat =
      some (1000, 500) ∧
    (generateGeotiffExport (fun _ => ⟨fun p => p, fun p => Except.ok p⟩)
        (fun p => p) (fun p => p) (fun _ _ _ _ _ => ()) (fun _ => ())
        (fun _ _ _ _ => Except.ok "tifbytes") () "/x/" [sampleImageRow]
        sampleOverlayRow sampleQuadTreeRow "mapfasten-foo"
        ⟨2024, 1, 2, 3, 4, 5⟩ : GeotiffRun Unit Unit Unit).fittedRpc =
      some () := by
  have h := generateGeotiffExport_center_fit_reproject
    (fun _ => ⟨fun p => p, fun p => Except.ok p⟩) (fun p => p) (fun p => p)
    (fun _ _ _ _ _ => ()) (fun _ => ()) (fun _ _ _ _ => Except.ok "tifbytes")
    () "/x/" [sampleImageRow] sampleOverlayRow sampleQuadTreeRow
    "mapfasten-foo" ⟨2024, 1, 2, 3, 4, 5⟩ "T" rfl _ rfl
  refine ⟨h.1.trans ?_, h.2.1⟩
  decide

/-- Claim C8: an HTML export — completed or failed — leaves the record's KML
and GeoTIFF artifact fields exactly as they were, and a GeoTIFF export —
completed or failed — leaves the HTML and KML artifact fields exactly as
they were: each export kind touches only its own artifact fields. -/
theorem exports_touch_only_their_own_fields {μ Rpc Meta SRS : Type}
    (store : ℕ → Option QuadTreeRow) (cache : GeneratorCache)
    (writeQuadTree : Generator → String → TarData)
    (renderSimpleView : String → μ → String → String) (dumpsFn : μ → String)
    (makeTransform : String → Tform)
    (metersToLatLon lonLatToMeters : ℚ × ℚ → ℚ × ℚ)
    (fitRpcToModel :
      (List (ℚ × ℚ × ℚ) → Except String (Option (List (ℚ × ℚ)))) →
      ℤ → ℤ → ℚ → ℚ → Rpc)
    (getVrtMetadata : Rpc → Meta)
    (reproject : String → Meta → SRS → String → Except PyError String)
    (epsg4326 : SRS) (dataRoot : String) (db : List ImageDataRow)
    (overlay : OverlayRow) (q : QuadTreeRow) (extras : OverlayExtras)
    (exportName : String) (metaJson : μ) (slug : String) (utcnow : DateTime) :
    ((generateHtmlExport store cache writeQuadTree renderSimpleView dumpsFn q
        extras exportName metaJson slug utcnow).1.1.kmlExportName =
          q.kmlExportName ∧
      (generateHtmlExport store cache writeQuadTree renderSimpleView dumpsFn q
        extras exportName metaJson slug utcnow).1.1.kmlExport = q.kmlExport ∧
      (generateHtmlExport store cache writeQuadTree renderSimpleView dumpsFn q
        extras exportName metaJson slug utcnow).1.1.geotiffExportName =
          q.geotiffExportName ∧
      (generateHtmlExport store cache writeQuadTree renderSimpleView dumpsFn q
        extras exportName metaJson slug utcnow).1.1.geotiffExport =
          q.geotiffExport) ∧
    ((generateGeotiffExport makeTransform metersToLatLon lonLatToMeters
        fitRpcToModel getVrtMetadata reproject epsg4326 dataRoot db overlay q
        exportName utcnow).record.htmlExportName = q.htmlExportName ∧
      (generateGeotiffExport makeTransform metersToLatLon lonLatToMeters
        fitRpcToModel getVrtMetadata reproject epsg4326 dataRoot db overlay q
        exportName utcnow).record.htmlExport = q.htmlExport ∧
      (generateGeotiffExport makeTransform metersToLatLon lonLatToMeters
        fitRpcToModel getVrtMetadata reproject epsg4326 dataRoot db overlay q
        exportName utcnow).record.kmlExportName = q.kmlExportName ∧
      (generateGeotiffExport makeTransform metersToLatLon lonLatToMeters
        fitRpcToModel getVrtMetadata reproject epsg4326 dataRoot db overlay q
        exportName utcnow).record.kmlExport = q.kmlExport) := by
  constructor
  · cases h : getGeneratorWithCache store cache q.id with
    | error e => simp [generateHtmlExport, h]
    | ok v =>
        obtain ⟨gen, cache2⟩ := v
        simp [generateHtmlExport, h]
  · unfold generateGeotiffExport
    cases ht : overlay.extras.transform <;> simp only [ht]
    · simp
    · cases hraw : getRawImageData db overlay <;> simp only [hraw]
      · simp
      · split <;> simp

/-- Claim C9: with no transform in the overlay's extras,
`generateAlignedQuadTree` returns `None`, creating no quadtree and leaving
the overlay (in particular its `alignedQuadTree` reference) untouched; with a
transform present and a raw image row available, the new aligned quadtree is
built from that raw (original, unrotated, unenhanced) image row — the one
`getRawImageData` selects — and referenced from `alignedQuadTree`. -/
theorem generateAlignedQuadTree_raw_or_none (dumpsFn : String → String)
    (db : List ImageDataRow) (freshId utcnow : ℕ) (o : OverlayRow) :
    (o.extras.transform = none →
      generateAlignedQuadTree dumpsFn db freshId utcnow o =
        Except.ok (none, o)) ∧
    (∀ transformDict rawRow, o.extras.transform = some transformDict →
      getRawImageData db o = some rawRow →
      ∃ qt, generateAlignedQuadTree dumpsFn db freshId utcnow o =
          Except.ok (some qt, { o with alignedQuadTree := some qt.id }) ∧
        qt.imageData = some rawRow ∧ qt.transform = dumpsFn transformDict ∧
        qt.id = freshId ∧ qt.lastModifiedTime = utcnow) := by
  constructor
  · intro h
    simp [generateAlignedQuadTree, h]
  · intro transformDict rawRow h1 h2
    refine ⟨⟨freshId, utcnow, some rawRow, dumpsFn transformDict, none, none,
      none, none, none, none, none⟩, ?_, rfl, rfl, rfl, rfl⟩
    simp [generateAlignedQuadTree, h1, h2, QuadTreeRow.save]

/-- Witness for C9's theorem: a concrete overlay with a transform and one raw
image row — the created quadtree holds that raw row, the serialized
transform, the fresh id, and the save-time stamp, and is referenced from
`alignedQuadTree`. -/
theorem generateAlignedQuadTree_raw_or_none_witness :
    ∃ qt, generateAlignedQuadTree (fun s => s) [sampleImageRow] 9 5
        sampleOverlayRow =
        Except.ok (some qt,
          { sampleOverlayRow with alignedQuadTree := some qt.id }) ∧
      qt.imageData = some sampleImageRow ∧ qt.transform = "T" ∧
      qt.id = 9 ∧ qt.lastModifiedTime = 5 :=
  (generateAlignedQuadTree_raw_or_none (fun s => s) [sampleImageRow] 9 5
    sampleOverlayRow).2 "T" sampleImageRow rfl rfl

end GeocamTiePoint
